import Mathlib

/-!
Verification of the entity/relationship inference pipeline of the
KEFinalWork knowledge-graph service.

The Python source is shallowly embedded:
- strings are Lean `String` (Python `in` on strings becomes `strContains`,
  `str.strip()` becomes `pyStrip`, implemented over the character list so
  that concrete instances evaluate);
- the MySQL table `knowledge_triples` becomes a `List Triple`, the table
  `valid_relations` a `List String`;
- Python floats become exact rationals `ℚ` (all constants in the source are
  short decimal literals);
- the remote Kimi chat-completion backend is an oracle parameter
  `remote : String → String → List String → Option String`; `none` models
  an absent client or a raised exception, `some r` models a reply `r`
  (already stripped).  Quantifying over `remote` covers every backend
  behavior, including out-of-vocabulary replies.
-/

/-- Python `sub in s` (substring membership over code points). -/
def strContains (s sub : String) : Bool :=
  go s.toList sub.toList
where
  go : List Char → List Char → Bool
    | _, [] => true
    | [], _ :: _ => false
    | c :: cs, sub => sub.isPrefixOf (c :: cs) || go cs sub

/-- Python `s.strip()`: drop whitespace from both ends. -/
def pyStrip (s : String) : String :=
  String.mk (((s.toList.dropWhile Char.isWhitespace).reverse.dropWhile
    Char.isWhitespace).reverse)

/-- Python `s.endswith(suf)`. -/
def strEndsWith (s suf : String) : Bool :=
  suf.toList.isSuffixOf s.toList

/-- Python `s.startswith(pre)`. -/
def strStartsWith (s pre : String) : Bool :=
  pre.toList.isPrefixOf s.toList

/-- A stored knowledge-graph triple (a row of `knowledge_triples`). -/
structure Triple where
  head_entity : String
  relation : String
  tail_entity : String
deriving DecidableEq

/-- `ai_service.KimiService._mock_relation`: keyword classes used by the
deterministic rule fallback. -/
def tree_keywords : List String := ["松", "树", "林"]

def insect_keywords : List String := ["天牛", "昆虫", "媒介"]

def disease_keywords : List String := ["线虫", "病", "症状"]

def env_keywords : List String := ["温度", "湿度", "气候", "环境"]

/-- `ai_service.KimiService._mock_relation`: rule-based relation choice used
whenever the API is unavailable, errors, or answers out of vocabulary. -/
def mock_relation (entity_a entity_c : String) (valid_relations : List String) :
    String :=
  if valid_relations.isEmpty then "相关"
  else if tree_keywords.any (fun k => strContains entity_a k) then
    if valid_relations.contains "易感" &&
        disease_keywords.any (fun k => strContains entity_c k) then "易感"
    else if valid_relations.contains "属于" &&
        tree_keywords.any (fun k => strContains entity_c k) then "属于"
    else valid_relations.headD ""
  else if insect_keywords.any (fun k => strContains entity_a k) then
    if valid_relations.contains "传播" then "传播" else valid_relations.headD ""
  else if env_keywords.any (fun k => strContains entity_a k) then
    if valid_relations.contains "影响" then "影响" else valid_relations.headD ""
  else valid_relations.headD ""

/-- `ai_service.KimiService.infer_relation`.  The guard
`if not self.client or not valid_relations` and every exception raised by the
chat call are modelled by `remote _ _ _ = none`; a reply is accepted only when
it is exactly a member of `valid_relations`, otherwise the rule fallback is
used. -/
def infer_relation (remote : String → String → List String → Option String)
    (entity_a entity_c : String) (valid_relations : List String) : String :=
  if valid_relations.isEmpty then mock_relation entity_a entity_c valid_relations
  else
    match remote entity_a entity_c valid_relations with
    | none => mock_relation entity_a entity_c valid_relations
    | some r =>
        if valid_relations.contains r then r
        else mock_relation entity_a entity_c valid_relations

theorem headD_mem {l : List String} (h : l ≠ []) : l.headD "" ∈ l := by
  cases l with
  | nil => exact absurd rfl h
  | cons a t => simp [List.headD]

theorem mock_relation_mem (a c : String) {R : List String} (h : R ≠ []) :
    mock_relation a c R ∈ R := by
  have hne : R.isEmpty = false := by
    cases R with
    | nil => exact absurd rfl h
    | cons x t => rfl
  unfold mock_relation
  rw [hne]
  simp only [Bool.false_eq_true, if_false]
  split_ifs with h1 h2 h3 h4 h5 h6 <;>
    first
      | exact headD_mem h
      | exact List.mem_of_elem_eq_true ((Bool.and_eq_true _ _).mp (by assumption)).1
      | exact List.mem_of_elem_eq_true (by assumption)

theorem infer_relation_mem
    (remote : String → String → List String → Option String)
    (a c : String) {R : List String} (h : R ≠ []) :
    infer_relation remote a c R ∈ R := by
  have hne : R.isEmpty = false := by
    cases R with
    | nil => exact absurd rfl h
    | cons x t => rfl
  unfold infer_relation
  rw [hne]
  simp only [Bool.false_eq_true, if_false]
  cases hr : remote a c R with
  | none => exact mock_relation_mem a c h
  | some r =>
      by_cases hc : R.contains r = true
      · simp only [hc, if_true]
        exact List.mem_of_elem_eq_true hc
      · simp only [hc, if_false]
        exact mock_relation_mem a c h

/-- C1: for every pair of entity names and every non-empty allowed-relation
list `R`, `infer_relation` returns an element of `R`, for every behavior of
the remote backend (absent, failing, or answering out of vocabulary). -/
theorem infer_relation_in_vocab
    (remote : String → String → List String → Option String)
    (a c : String) {R : List String} (h : R ≠ []) :
    infer_relation remote a c R ∈ R :=
  infer_relation_mem remote a c h

/-- Witness for C1: a concrete run with a backend that answers out of
vocabulary still lands in the vocabulary. -/
theorem infer_relation_in_vocab_witness :
    infer_relation (fun _ _ _ => some "无效回答") "湿地松" "松材线虫" ["易感", "传播"]
      ∈ ["易感", "传播"] :=
  infer_relation_in_vocab (fun _ _ _ => some "无效回答") "湿地松" "松材线虫"
    (List.cons_ne_nil _ _)

/-- C10: with an empty allowed-relation list, `infer_relation` does not fail
but returns the fixed string "相关", which is not a member of the empty
vocabulary. -/
theorem infer_relation_empty_vocab
    (remote : String → String → List String → Option String) (a c : String) :
    infer_relation remote a c [] = "相关" ∧ "相关" ∉ ([] : List String) :=
  ⟨rfl, by simp⟩

/-- Node existence (`main.py` count query): a name exists in the graph iff it
appears as head or tail of at least one stored triple. -/
def nodeExists (g : List Triple) (n : String) : Bool :=
  g.any (fun t => t.head_entity == n || t.tail_entity == n)

/-- The SQL of `main.py:generate_candidate_triples` step 2:
SELECT DISTINCT CASE WHEN head_entity = B THEN tail_entity ELSE head_entity END
FROM knowledge_triples WHERE head_entity = B OR tail_entity = B. -/
def related_entities (g : List Triple) (b : String) : List String :=
  ((g.filter (fun t => t.head_entity == b || t.tail_entity == b)).map
    (fun t => if t.head_entity == b then t.tail_entity else t.head_entity)).dedup

/-- The failure modes of the two onboarding endpoints (HTTP 400 for an empty
name, HTTP 400 "已存在" for a duplicate entity, HTTP 404, HTTP 500). -/
inductive ApiError
  | badRequest
  | conflict
  | notFound
  | serverError
deriving DecidableEq

/-- `main.py:generate_candidate_triples` (phase 2, expand): strip both names,
reject an existing entity A, enumerate all entities related to B, reject an
empty neighborhood and an empty relation vocabulary, then infer one relation
per neighbor. -/
def generate_candidate_triples
    (remote : String → String → List String → Option String)
    (g : List Triple) (valid_relations : List String)
    (entity_name similar_entity : String) : Except ApiError (List Triple) :=
  let a := pyStrip entity_name
  let b := pyStrip similar_entity
  if a = "" || b = "" then .error .badRequest
  else if nodeExists g a then .error .conflict
  else
    let related := related_entities g b
    if related.isEmpty then .error .notFound
    else if valid_relations.isEmpty then .error .serverError
    else .ok (related.map fun c =>
      { head_entity := a
        relation := infer_relation remote a c valid_relations
        tail_entity := c })

/-- "C has a direct edge to B in either direction" (the WHERE clause of the
neighborhood query). -/
def hasEdgeTo (g : List Triple) (b n : String) : Prop :=
  ∃ t ∈ g, (t.head_entity = b ∧ t.tail_entity = n) ∨
    (t.tail_entity = b ∧ t.head_entity = n)

theorem mem_related_entities {g : List Triple} {b n : String} :
    n ∈ related_entities g b ↔ hasEdgeTo g b n := by
  unfold related_entities hasEdgeTo
  rw [List.mem_dedup]
  simp only [List.mem_map, List.mem_filter, Bool.or_eq_true, beq_iff_eq]
  constructor
  · rintro ⟨t, ⟨ht, hb⟩, hf⟩
    refine ⟨t, ht, ?_⟩
    by_cases hh : t.head_entity = b
    · rw [if_pos hh] at hf
      exact Or.inl ⟨hh, hf⟩
    · rw [if_neg hh] at hf
      rcases hb with hb | hb
      · exact absurd hb hh
      · exact Or.inr ⟨hb, hf⟩
  · rintro ⟨t, ht, h | h⟩
    · exact ⟨t, ⟨ht, Or.inl h.1⟩, by rw [if_pos h.1]; exact h.2⟩
    · refine ⟨t, ⟨ht, Or.inr h.1⟩, ?_⟩
      by_cases hh : t.head_entity = b
      · rw [if_pos hh, h.1, ← hh, h.2]
      · rw [if_neg hh]
        exact h.2

theorem ne_nil_of_not_isEmpty {α : Type} {l : List α} (h : ¬ l.isEmpty = true) :
    l ≠ [] := by
  cases l with
  | nil => exact absurd rfl h
  | cons a t => exact List.cons_ne_nil a t

/-- C2: when the expand phase succeeds, it returns exactly one candidate per
distinct node with a direct edge to the anchor B (in either direction, no
cap): the candidate tails are duplicate-free and are exactly the neighbors of
B; every candidate has head A and a relation belonging to the valid-relation
vocabulary. -/
theorem generate_candidate_triples_spec
    (remote : String → String → List String → Option String)
    (g : List Triple) (R : List String) (a b : String) (cs : List Triple)
    (h : generate_candidate_triples remote g R a b = .ok cs) :
    (cs.map Triple.tail_entity).Nodup ∧
    (∀ n, n ∈ cs.map Triple.tail_entity ↔ hasEdgeTo g (pyStrip b) n) ∧
    (∀ t ∈ cs, t.head_entity = pyStrip a ∧ t.relation ∈ R) := by
  simp only [generate_candidate_triples] at h
  by_cases hab : (decide (pyStrip a = "") || decide (pyStrip b = "")) = true
  · rw [if_pos hab] at h
    exact Except.noConfusion h
  · rw [if_neg hab] at h
    by_cases hex : nodeExists g (pyStrip a) = true
    · rw [if_pos hex] at h
      exact Except.noConfusion h
    · rw [if_neg hex] at h
      by_cases hrel : (related_entities g (pyStrip b)).isEmpty = true
      · rw [if_pos hrel] at h
        exact Except.noConfusion h
      · rw [if_neg hrel] at h
        by_cases hR0 : R.isEmpty = true
        · rw [if_pos hR0] at h
          exact Except.noConfusion h
        · rw [if_neg hR0] at h
          injection h with h
          subst h
          have hR : R ≠ [] := ne_nil_of_not_isEmpty hR0
          refine ⟨?_, ?_, ?_⟩
          · rw [List.map_map]
            simp only [Function.comp_def]
            simp only [List.map_id']
            exact List.nodup_dedup _
          · intro n
            rw [List.map_map]
            simp only [Function.comp_def]
            simp only [List.map_id']
            exact mem_related_entities
          · intro t ht
            rcases List.mem_map.mp ht with ⟨c, _, rfl⟩
            exact ⟨rfl, infer_relation_mem remote (pyStrip a) c hR⟩

/-- Witness for C2: a one-triple graph around anchor 马尾松 with the backend
down; the expand phase yields exactly the single neighbor, head 湿地松 and a
vocabulary relation. -/
theorem generate_candidate_triples_spec_witness :
    (([Triple.mk "湿地松" "属于" "松材线虫"]).map Triple.tail_entity).Nodup ∧
    (∀ n, n ∈ ([Triple.mk "湿地松" "属于" "松材线虫"]).map Triple.tail_entity ↔
        hasEdgeTo [Triple.mk "马尾松" "易感" "松材线虫"] (pyStrip "马尾松") n) ∧
    (∀ t ∈ [Triple.mk "湿地松" "属于" "松材线虫"],
        t.head_entity = pyStrip "湿地松" ∧ t.relation ∈ ["属于", "传播"]) :=
  generate_candidate_triples_spec (fun _ _ _ => none)
    [Triple.mk "马尾松" "易感" "松材线虫"]
    ["属于", "传播"] "湿地松" "马尾松" _ rfl

/-- `ai_service.Word2VecService._mock_similar_words_topn`: the hard-coded
similar-word groups (scores are the exact decimal constants, as rationals). -/
def mock_similar_groups (word : String) : Option (List (String × ℚ)) :=
  if word = "湿地松" then some [("马尾松", 0.89), ("黑松", 0.85), ("赤松", 0.82),
    ("华山松", 0.79), ("落叶松", 0.76), ("红松", 0.74), ("云杉", 0.71),
    ("冷杉", 0.68), ("雪松", 0.65), ("松树", 0.62)]
  else if word = "天牛" then some [("松墨天牛", 0.92), ("媒介昆虫", 0.87),
    ("传播媒介", 0.84), ("昆虫", 0.79), ("害虫", 0.76), ("虫媒", 0.73),
    ("天敌", 0.70), ("寄主", 0.67), ("载体", 0.64), ("中间宿主", 0.61)]
  else if word = "线虫" then some [("松材线虫", 0.95), ("病原体", 0.90),
    ("病原", 0.87), ("寄生虫", 0.83), ("微生物", 0.78), ("致病菌", 0.75),
    ("病菌", 0.72), ("虫害", 0.68), ("病害", 0.65), ("病原物", 0.62)]
  else if word = "高温" then some [("温度", 0.88), ("气候", 0.85),
    ("环境温度", 0.82), ("热量", 0.78), ("气温", 0.75), ("湿度", 0.72),
    ("低温", 0.69), ("温差", 0.66), ("环境条件", 0.63), ("气候条件", 0.60)]
  else none

/-- The global default group returned for a term with no specific mapping. -/
def default_similar : List (String × ℚ) :=
  [("松树", 0.75), ("马尾松", 0.72), ("松材线虫", 0.70), ("松墨天牛", 0.67),
   ("感染", 0.64), ("传播", 0.61), ("防治", 0.58), ("病害", 0.55),
   ("林木", 0.52), ("疫情", 0.50)]

/-- `ai_service.Word2VecService._mock_similar_words_topn`: the group for the
word when one is preset, otherwise the global default, truncated to `topn`. -/
def mock_similar_words_topn (word : String) (topn : Nat) : List (String × ℚ) :=
  ((mock_similar_groups word).getD default_similar).take topn

/-- `ai_service.Word2VecService.find_most_similar_topn` with the service in
fallback mode (`self.model is None` — no word2vec binary configured — and
likewise after any lookup exception, both of which redirect to the mock).
The gensim branch is an external embedding backend outside the core. -/
def find_most_similar_topn (word : String) (topn : Nat) : List (String × ℚ) :=
  mock_similar_words_topn word topn

theorem sorted_ge_take {l : List ℚ} (h : l.Sorted (· ≥ ·)) (n : Nat) :
    (l.take n).Sorted (· ≥ ·) :=
  List.Pairwise.sublist (List.take_sublist n l) h

theorem groups_sorted (w : String) :
    (((mock_similar_groups w).getD default_similar).map Prod.snd).Sorted
      (· ≥ ·) := by
  unfold mock_similar_groups default_similar
  split_ifs <;> norm_num [List.sorted_cons]

/-- C4: for every term and every bound `n`, the similarity lookup returns a
list whose scores are non-increasing and whose length is at most `n`. -/
theorem find_most_similar_topn_sorted_and_bounded (w : String) (n : Nat) :
    ((find_most_similar_topn w n).map Prod.snd).Sorted (· ≥ ·) ∧
    (find_most_similar_topn w n).length ≤ n := by
  unfold find_most_similar_topn mock_similar_words_topn
  constructor
  · rw [List.map_take]
    exact sorted_ge_take (groups_sorted w) n
  · simp [List.length_take]

/-- C5: the fallback lookup is total (the Lean model is a total function: no
exception can reach the caller) and, for any requested count of at least one,
returns a non-empty list; a term with no specific mapping gets the global
default group. -/
theorem find_most_similar_topn_nonempty (w : String) (n : Nat) (h : 1 ≤ n) :
    1 ≤ (find_most_similar_topn w n).length ∧
    (mock_similar_groups w = none →
      find_most_similar_topn w n = default_similar.take n) := by
  constructor
  · unfold find_most_similar_topn mock_similar_words_topn
    have hlen : 1 ≤ ((mock_similar_groups w).getD default_similar).length := by
      unfold mock_similar_groups default_similar
      split_ifs <;> simp
    rw [List.length_take]
    omega
  · intro hw
    unfold find_most_similar_topn mock_similar_words_topn
    rw [hw]
    rfl

/-- Witness for C5: a term with no preset group still yields the (non-empty)
global default list. -/
theorem find_most_similar_topn_nonempty_witness :
    1 ≤ (find_most_similar_topn "某新物种" 3).length ∧
    find_most_similar_topn "某新物种" 3 = default_similar.take 3 :=
  ⟨(find_most_similar_topn_nonempty "某新物种" 3 (by decide)).1,
   (find_most_similar_topn_nonempty "某新物种" 3 (by decide)).2 rfl⟩

/-- One row of the `/api/node/similar` response. -/
structure SimilarEntity where
  entity : String
  similarity : ℚ
  in_graph : Bool
deriving DecidableEq

/-- `main.py:get_similar_entities` (phase 1, discover): strip the name,
reject an empty name, reject an entity already present in the graph, fetch
three times the requested number of similar words, split them into in-graph
and out-of-graph, and return up to `topn` preferring in-graph entries. -/
def get_similar_entities (g : List Triple) (entity_name : String)
    (topn : Nat) : Except ApiError (List SimilarEntity) :=
  let a := pyStrip entity_name
  if a = "" then .error .badRequest
  else if nodeExists g a then .error .conflict
  else
    let similar := find_most_similar_topn a (topn * 3)
    if similar.isEmpty then .error .notFound
    else
      let entries := similar.map fun p =>
        SimilarEntity.mk p.1 p.2 (nodeExists g p.1)
      let in_graph_entries := entries.filter (fun e => e.in_graph)
      let out_graph_entries := entries.filter (fun e => !e.in_graph)
      let result := in_graph_entries.take topn ++
        out_graph_entries.take (topn - (in_graph_entries.take topn).length)
      if result.isEmpty then .error .notFound
      else .ok result

/-- C3: assuming the empty name is not a graph node (guaranteed by the write
path, which strips and rejects empty names), the discover phase fails with
Conflict exactly when the (stripped) new name already appears as head or tail
of a stored triple.  A blank input fails earlier with the empty-name
rejection, and the remaining paths fail only with NotFound or succeed. -/
theorem get_similar_entities_conflict_iff (g : List Triple) (a : String)
    (topn : Nat) (hg : nodeExists g "" = false) :
    get_similar_entities g a topn = .error .conflict ↔
      nodeExists g (pyStrip a) = true := by
  simp only [get_similar_entities]
  by_cases he : pyStrip a = ""
  · rw [if_pos he, he, hg]
    constructor
    · intro h
      exact absurd (Except.error.inj h) (by decide)
    · intro h
      exact absurd h (by decide)
  · rw [if_neg he]
    by_cases hx : nodeExists g (pyStrip a) = true
    · rw [if_pos hx]
      simp [hx]
    · rw [if_neg hx]
      constructor
      · intro h
        split at h
        · exact absurd (Except.error.inj h) (by decide)
        · split at h
          · exact absurd (Except.error.inj h) (by decide)
          · exact Except.noConfusion h
      · intro h
        exact absurd h hx

/-- Witness for C3: in a graph where 马尾松 occurs, discovery for 马尾松 is a
Conflict, and the graph has no empty-named node. -/
theorem get_similar_entities_conflict_iff_witness :
    get_similar_entities [Triple.mk "马尾松" "易感" "松材线虫"] "马尾松" 10 =
        .error .conflict ↔
      nodeExists [Triple.mk "马尾松" "易感" "松材线虫"] (pyStrip "马尾松") = true :=
  get_similar_entities_conflict_iff [Triple.mk "马尾松" "易感" "松材线虫"]
    "马尾松" 10 rfl

/-- `ai_service.KimiService.extract_high_level_nodes_by_rules`, rule 1: the
fixed category-keyword set (exact membership). -/
def category_keywords : List String :=
  ["天牛", "线虫", "松属", "病害", "昆虫", "真菌", "病毒", "细菌",
   "技术", "方法", "算法", "模型", "指数", "特征", "指标",
   "学", "保护学", "昆虫学", "病理学", "检疫学", "生态学",
   "防治", "措施", "检疫", "监测", "诊断", "治疗",
   "省份", "城市", "国家", "地区", "区域",
   "年份", "时间", "季节",
   "风险评估", "早期诊断", "生态服务", "能量代谢", "生理指标",
   "基因", "代谢通路", "种群动态", "植被指数", "光谱特征",
   "多尺度监测", "研究模型", "软件"]

/-- Rule 2: category words looked for inside short (≤ 3 character) names. -/
def rule2_keywords : List String :=
  ["天牛", "线虫", "松属", "病害", "昆虫", "真菌"]

/-- Rule 3: category suffix patterns. -/
def category_suffixes : List String :=
  ["学", "技术", "方法", "措施", "防治", "监测", "诊断", "评估",
   "指标", "特征", "指数", "模型", "算法", "通路"]

/-- Rule 4: category starting patterns. -/
def category_prefixes : List String :=
  ["物理", "化学", "生物", "营林", "检疫", "分子", "遥感",
   "森林", "林业", "生态", "环境"]

/-- Rule 5: concrete-species markers excluding a high-degree short name. -/
def concrete_markers : List String := ["松", "天牛", "线虫", "病"]

/-- Exclusion pass: category words whose longer containers are demoted. -/
def exclusion_categories : List String :=
  ["天牛", "线虫", "松属", "病害", "松", "虫"]

/-- The per-node body of the classifier loop: rules 1-4 as an elif chain,
rule 5 on the degree map (only when a non-empty map is supplied), then the
exclusion pass demoting names longer than a contained category word by more
than 2 characters. -/
def is_high_level_node (node : String)
    (node_degrees : List (String × Nat)) : Bool :=
  let base :=
    if category_keywords.contains node then true
    else if node.length ≤ 3 then
      rule2_keywords.any (fun k => strContains node k)
    else if category_suffixes.any (fun suf => strEndsWith node suf) then
      if node.length ≤ 6 then true
      else strEndsWith node "学"
    else if category_prefixes.any (fun pre => strStartsWith node pre) then
      decide (node.length ≤ 8)
    else false
  let with_degree :=
    if !base && !node_degrees.isEmpty then
      let degree := ((node_degrees.find? (fun p => p.1 == node)).map
        Prod.snd).getD 0
      if degree ≥ 10 && node.length ≤ 4 &&
          !(concrete_markers.any (fun m => strContains node m)) then true
      else base
    else base
  if with_degree then
    !(exclusion_categories.any (fun cat =>
      strContains node cat && decide (node.length > cat.length + 2)))
  else false

/-- `ai_service.KimiService.extract_high_level_nodes_by_rules`: strip each
name, skip blanks, keep the names the rules accept; the Python `set` result
is modelled as a duplicate-free list. -/
def extract_high_level_nodes_by_rules (all_nodes : List String)
    (node_degrees : List (String × Nat)) : List String :=
  if all_nodes.isEmpty then []
  else ((all_nodes.map pyStrip).filter
    (fun node => node != "" && is_high_level_node node node_degrees)).dedup

/-- C6: the classifier is a pure, deterministic function of its inputs:
running it twice on identical input (names plus optional degree map) yields
the identical output set. -/
theorem extract_high_level_nodes_deterministic
    (all_nodes : List String) (node_degrees : List (String × Nat)) :
    extract_high_level_nodes_by_rules all_nodes node_degrees =
      extract_high_level_nodes_by_rules all_nodes node_degrees := rfl

/-- C7: on the concrete input set {天牛, 森林保护学, 马尾松} with an empty
degree map, the classifier keeps 天牛 (exact category keyword) and 森林保护学
(discipline suffix) and rejects 马尾松. -/
theorem extract_high_level_nodes_concrete :
    "天牛" ∈ extract_high_level_nodes_by_rules ["天牛", "森林保护学", "马尾松"] [] ∧
    "森林保护学" ∈
      extract_high_level_nodes_by_rules ["天牛", "森林保护学", "马尾松"] [] ∧
    "马尾松" ∉
      extract_high_level_nodes_by_rules ["天牛", "森林保护学", "马尾松"] [] := by
  decide

/-- An entity detected in an image, as consumed by the analyzer: a name, a
type tag, a recognition confidence, and an optional knowledge-base match. -/
structure DetectedEntity where
  name : String
  type : String
  confidence : ℚ
  matched_kb_entity : Option String
deriving DecidableEq

/-- Python `entity.get("matched_kb_entity") or entity["name"]`: a missing or
empty (falsy) match falls back to the raw name. -/
def resolvedName (e : DetectedEntity) : String :=
  match e.matched_kb_entity with
  | some s => if s = "" then e.name else s
  | none => e.name

/-- Python truthiness of `entity.get("matched_kb_entity")`. -/
def kb_truthy (e : DetectedEntity) : Bool :=
  match e.matched_kb_entity with
  | some s => s != ""
  | none => false

/-- Round to the nearest integer, ties to even (Python `round` on an exact
value; no claim-relevant value sits on a tie). -/
def roundHalfEven (q : ℚ) : ℤ :=
  let f := ⌊q⌋
  if q - f < 1/2 then f
  else if q - f > 1/2 then f + 1
  else if f % 2 = 0 then f else f + 1

/-- Python `round(x, 1)`. -/
def roundTo1 (q : ℚ) : ℚ := (roundHalfEven (q * 10) : ℚ) / 10

/-- `multi_entity_analyzer.MultiEntityAnalyzer.relationship_rules`. -/
def relationship_rules : List ((String × String) × List String) :=
  [(("insect", "disease_symptom"), ["传播", "携带", "引起"]),
   (("insect", "tree"), ["寄主", "感染", "攻击"]),
   (("tree", "disease_symptom"), ["表现", "易感", "出现"]),
   (("disease_symptom", "disease_symptom"), ["伴随", "导致", "发展"]),
   (("insect", "insect"), ["竞争", "协同", "替代"])]

/-- Dict lookup in `relationship_rules`. -/
def rulesLookup (k : String × String) : Option (List String) :=
  (relationship_rules.find? (fun p => p.1 == k)).map Prod.snd

/-- `itertools.combinations(l, 2)` in iteration order. -/
def pairsOf {α : Type} : List α → List (α × α)
  | [] => []
  | x :: xs => (xs.map (fun y => (x, y))) ++ pairsOf xs

/-- A relationship record of the analysis result.  The purely presentational
fields of the source dicts (the reasoning string and the pair's type tags)
are omitted. -/
structure KRel where
  head_entity : String
  relation : String
  tail_entity : String
  source : String
  confidence : ℚ
deriving DecidableEq

/-- `MultiEntityAnalyzer._query_existing_relationships`: for every unordered
pair of resolved names, every stored triple linking them in either direction,
at confidence 1. -/
def query_existing_relationships (g : List Triple)
    (detected : List DetectedEntity) : List KRel :=
  ((pairsOf (detected.map resolvedName)).map (fun ab =>
    (g.filter (fun t =>
      (t.head_entity == ab.1 && t.tail_entity == ab.2) ||
      (t.head_entity == ab.2 && t.tail_entity == ab.1))).map (fun t =>
        KRel.mk t.head_entity t.relation t.tail_entity "existing" 1))).flatten

/-- `MultiEntityAnalyzer._calculate_inference_confidence`: the fixed
per-relation confidence boost. -/
def relation_confidence_boost (relation : String) : ℚ :=
  if relation = "传播" then 0.2
  else if relation = "感染" then 0.2
  else if relation = "易感" then 0.15
  else if relation = "寄主" then 0.15
  else 0

/-- `MultiEntityAnalyzer._calculate_inference_confidence`. -/
def calculate_inference_confidence (a b : DetectedEntity)
    (relation : String) : ℚ :=
  roundTo1 (min ((0.6 : ℚ) + ((a.confidence + b.confidence) / 2) * 0.2 +
    ((if kb_truthy a then (0.1 : ℚ) else 0) +
     (if kb_truthy b then (0.1 : ℚ) else 0)) +
    relation_confidence_boost relation) 1)

/-- `MultiEntityAnalyzer._infer_potential_relationships`: for every pair,
choose the shortlist from the (type, type) rule table (trying both key
orders, defaulting to the full vocabulary), infer a relation, and keep the
pair when the result lies in the stored vocabulary. -/
def infer_potential_relationships
    (remote : String → String → List String → Option String)
    (valid_relations : List String)
    (detected : List DetectedEntity) : List KRel :=
  if valid_relations.length = 0 then []
  else
    (pairsOf detected).filterMap (fun ab =>
      let name_a := resolvedName ab.1
      let name_b := resolvedName ab.2
      let rule_key :=
        if (rulesLookup (ab.1.type, ab.2.type)).isSome then
          (ab.1.type, ab.2.type)
        else (ab.2.type, ab.1.type)
      let suggested := (rulesLookup rule_key).getD valid_relations
      let inferred := infer_relation remote name_a name_b suggested
      if valid_relations.contains inferred then
        some (KRel.mk name_a inferred name_b "ai_inference"
          (calculate_inference_confidence ab.1 ab.2 inferred))
      else none)

/-- One validated scenario entry
(`MultiEntityAnalyzer._validate_pine_disease_combination`). -/
structure ScenarioHit where
  scenario_name : String
  confidence : ℚ
  evidence : List String
  risk_assessment : String
  recommendation : String
deriving DecidableEq

/-- `MultiEntityAnalyzer._get_pine_disease_recommendation`. -/
def get_pine_disease_recommendation (confidence : ℚ) : String :=
  if confidence > 0.8 then "极可能是松材线虫病，建议立即采取隔离和防治措施"
  else if confidence > 0.6 then "疑似松材线虫病，建议进行专业检测确认"
  else "存在松材线虫病风险，建议加强监测"

/-- The named entity-pair co-occurrence bonuses. -/
def specific_combinations : List (String × String × ℚ) :=
  [("松墨天牛", "马尾松", 0.3), ("松墨天牛", "松针发黄", 0.25),
   ("松针变红", "马尾松", 0.2)]

/-- `MultiEntityAnalyzer._validate_pine_disease_combination`: weighted
evidence indicators, the pair-co-occurrence bonuses, a cap at 1, a reporting
threshold of 0.3, and the tier cut at 0.7 / 0.5 on the uncapped-by-rounding
(exact) confidence; the stored confidence is rounded to one decimal. -/
def validate_pine_disease_combination (detected : List DetectedEntity) :
    Option ScenarioHit :=
  let entity_names := detected.map resolvedName
  let zipped := detected.zip entity_names
  let has_insect := zipped.any (fun en =>
    strContains en.2 "天牛" || en.1.type == "insect")
  let has_pine := zipped.any (fun en =>
    strContains en.2 "松" || en.1.type == "tree")
  let has_symptom := detected.any (fun e => e.type == "disease_symptom")
  if !(has_insect || has_pine || has_symptom) then none
  else
    let c1 : ℚ := if has_insect && has_pine then 0.4 else 0
    let e1 : List String :=
      if has_insect && has_pine then ["检测到昆虫媒介和宿主植物"] else []
    let c2 : ℚ := if has_symptom then 0.3 else 0
    let e2 : List String := if has_symptom then ["检测到疾病症状"] else []
    let c3 : ℚ := if has_insect && has_symptom then 0.2 else 0
    let e3 : List String :=
      if has_insect && has_symptom then ["媒介昆虫与疾病症状共现"] else []
    let hits := specific_combinations.filter (fun c =>
      entity_names.any (fun nm => strContains nm c.1) &&
      entity_names.any (fun nm => strContains nm c.2.1))
    let confidence := min (c1 + c2 + c3 + (hits.map (fun c => c.2.2)).sum) 1
    if confidence > 0.3 then
      some (ScenarioHit.mk "松材线虫病" (roundTo1 confidence)
        (e1 ++ e2 ++ e3 ++ hits.map (fun c =>
          "检测到关键组合: " ++ c.1 ++ " + " ++ c.2.1))
        (if confidence > 0.7 then "高风险"
         else if confidence > 0.5 then "中风险" else "低风险")
        (get_pine_disease_recommendation confidence))
    else none

/-- The dict returned by `MultiEntityAnalyzer._validate_entity_combinations`. -/
structure ValidationResult where
  validated_scenarios : List ScenarioHit
  highest_confidence_hit : Option ScenarioHit
  total_scenarios : Nat
  max_confidence : ℚ
deriving DecidableEq

/-- Python `max(l, key=...)`: the first element of maximal confidence. -/
def max_by_confidence : List ScenarioHit → Option ScenarioHit
  | [] => none
  | x :: xs => some (xs.foldl (fun acc y =>
      if y.confidence > acc.confidence then y else acc) x)

/-- `MultiEntityAnalyzer._validate_entity_combinations`: currently only the
pine-wilt-disease pattern is checked. -/
def validate_entity_combinations (detected : List DetectedEntity) :
    ValidationResult :=
  let validation_results :=
    match validate_pine_disease_combination detected with
    | some v => [v]
    | none => []
  ValidationResult.mk validation_results (max_by_confidence validation_results)
    validation_results.length
    (match validation_results.map ScenarioHit.confidence with
     | [] => 0
     | c :: cs => cs.foldl max c)

/-- `MultiEntityAnalyzer._calculate_relationship_confidence`. -/
def calculate_relationship_confidence (existing_rels potential_rels : List KRel)
    (validation : ValidationResult) : ℚ :=
  if existing_rels.isEmpty && potential_rels.isEmpty then 0
  else
    roundTo1 (min ((existing_rels.length : ℚ) * 0.3 +
      (potential_rels.map KRel.confidence).sum * 0.2 +
      (match validation.highest_confidence_hit with
       | some s => s.confidence * 0.5
       | none => 0)) 1)

/-- `MultiEntityAnalyzer._generate_recommendations` (the existing-relations
argument is accepted and unused, as in the source). -/
def generate_recommendations (entities : List DetectedEntity)
    (_existing_rels : List KRel) (potential_rels : List KRel)
    (validation : ValidationResult) : List String :=
  (match validation.highest_confidence_hit with
   | some s =>
       ["检测结果提示可能是" ++ s.scenario_name ++ "，" ++ s.recommendation]
   | none => []) ++
  (if !potential_rels.isEmpty &&
      !(potential_rels.filter (fun rel => rel.confidence > 0.7)).isEmpty then
    ["发现" ++ toString (potential_rels.filter
        (fun rel => rel.confidence > 0.7)).length ++
      "个高置信度的潜在关系，建议添加到知识库"]
  else []) ++
  (if (entities.map DetectedEntity.type).contains "insect" &&
      (entities.map DetectedEntity.type).contains "tree" then
    ["检测到昆虫和植物，建议监测传播风险"] else []) ++
  (if (entities.map DetectedEntity.type).contains "disease_symptom" then
    ["检测到疾病症状，建议及时采取防治措施"] else [])

/-- The analyzer's result dict (the presentational `analysis_summary` string
is omitted; the fewer-than-2-entities early return carries no validation). -/
structure AnalysisResult where
  entity_count : Nat
  existing_relationships : List KRel
  potential_relationships : List KRel
  validation_result : Option ValidationResult
  relationship_confidence : ℚ
  recommendations : List String
deriving DecidableEq

/-- `MultiEntityAnalyzer.analyze_entity_relationships`. -/
def analyze_entity_relationships
    (remote : String → String → List String → Option String)
    (g : List Triple) (valid_relations : List String)
    (detected : List DetectedEntity) : AnalysisResult :=
  if detected.length < 2 then
    AnalysisResult.mk detected.length [] [] none 0
      ["需要检测到至少2个实体才能进行关系分析"]
  else
    let existing := query_existing_relationships g detected
    let potential :=
      infer_potential_relationships remote valid_relations detected
    let validation := validate_entity_combinations detected
    AnalysisResult.mk detected.length existing potential (some validation)
      (calculate_relationship_confidence existing potential validation)
      (generate_recommendations detected existing potential validation)

/-- C8: with fewer than two detected entities the analyzer returns — it is a
total function, so nothing is raised — a structured result with overall
confidence 0.0 and exactly one insufficient-data recommendation string. -/
theorem analyze_insufficient_input
    (remote : String → String → List String → Option String)
    (g : List Triple) (valid_relations : List String)
    (detected : List DetectedEntity) (h : detected.length < 2) :
    (analyze_entity_relationships remote g valid_relations
      detected).relationship_confidence = 0 ∧
    (analyze_entity_relationships remote g valid_relations
      detected).recommendations = ["需要检测到至少2个实体才能进行关系分析"] := by
  unfold analyze_entity_relationships
  rw [if_pos h]
  exact ⟨rfl, rfl⟩

/-- Witness for C8: the empty batch yields confidence 0 and the single
insufficient-data recommendation. -/
theorem analyze_insufficient_input_witness :
    (analyze_entity_relationships (fun _ _ _ => none) [] []
      []).relationship_confidence = 0 ∧
    (analyze_entity_relationships (fun _ _ _ => none) [] []
      []).recommendations = ["需要检测到至少2个实体才能进行关系分析"] :=
  analyze_insufficient_input (fun _ _ _ => none) [] [] [] (by decide)

/-- C9: for a batch of an insect-typed 松墨天牛 and a tree-typed 马尾松 (any
recognition confidences, no knowledge-base match), scenario validation
reports a leading scenario whose stored confidence is at least 0.4 and whose
risk tier is medium (中风险) or high (高风险).  With exact arithmetic the
evidence sum is exactly 0.7, giving 中风险; under Python float rounding
0.4 + 0.3 slightly exceeds 0.7, giving 高风险 — both tiers lie in the
claimed set, and the stored confidence rounds to 0.7 either way. -/
theorem validate_combinations_pine_scenario (c1 c2 : ℚ) :
    (((validate_entity_combinations
        [DetectedEntity.mk "松墨天牛" "insect" c1 none,
         DetectedEntity.mk "马尾松" "tree" c2 none]).highest_confidence_hit.map
      ScenarioHit.confidence).getD 0 ≥ 0.4) ∧
    (((validate_entity_combinations
        [DetectedEntity.mk "松墨天牛" "insect" c1 none,
         DetectedEntity.mk "马尾松" "tree" c2 none]).highest_confidence_hit.map
      ScenarioHit.risk_assessment).getD "" ∈ ["中风险", "高风险"]) := by
  norm_num +decide [validate_entity_combinations,
    validate_pine_disease_combination, max_by_confidence, resolvedName,
    specific_combinations, get_pine_disease_recommendation, roundTo1,
    roundHalfEven, List.zip]
